import Mathlib

/-!
Verification development for the jigsaw_helper repository: a shallow
embedding of the frontend TypeScript modules (types, App component,
useWebSocket hook, PuzzleSelector component) together with a model of the
backend matching pipeline, whose Python source is not part of the
repository snapshot and is therefore modelled from the specification.
Numeric fields typed `number` in TypeScript are embedded as `Rat` (for
coordinates, distances and confidences) or `Int`/`Nat` (for counts and
identifiers); all definitions are executable.
-/

/-! ## Data model: TypeScript interfaces of the frontend `types` modules -/

/-- PuzzleInfo, as declared in both frontend type modules. -/
structure PuzzleInfo where
  id : String
  name : String
  width : Int
  height : Int
  num_features : Int
deriving Repr, DecidableEq

/-- MatchCandidate of the clustered-mode types module (src/unnamed/part_004):
id, bbox (x, y, w, h) in reference pixel coordinates, center (x, y),
confidence, numMatches. -/
structure MatchCandidate where
  id : Int
  bbox : Rat × Rat × Rat × Rat
  center : Rat × Rat
  confidence : Rat
  numMatches : Int
deriving Repr, DecidableEq

/-- MatchResult of the clustered-mode types module (src/unnamed/part_004):
matches, processingTime, pieceDetected, optional error. The TypeScript name
is `MatchResult`; it is qualified here because the raw-correspondence
module declares a distinct interface of the same name. -/
structure ClusteredMatchResult where
  «matches» : List MatchCandidate
  processingTime : Int
  pieceDetected : Bool
  error : Option String
deriving Repr, DecidableEq

/-- MatchPoint of the raw-correspondence types module (src/unnamed/part_003):
a point on the camera frame, the corresponding point on the reference
image, and the match distance. -/
structure MatchPoint where
  framePt : Rat × Rat
  refPt : Rat × Rat
  distance : Rat
deriving Repr, DecidableEq

/-- DebugInfo of the raw-correspondence types module (src/unnamed/part_003).
The TypeScript declaration marks `frame_size` optional (`frame_size?`),
while the remaining five fields are mandatory. -/
structure DebugInfo where
  frame_size : Option (Int × Int)
  frame_keypoints : Int
  ref_keypoints : Int
  raw_matches : Int
  good_matches : Int
  stages : List String
deriving Repr, DecidableEq

/-- MatchResult of the raw-correspondence types module (src/unnamed/part_003):
matchPoints, processingTime, debug, optional error. -/
structure RawMatchResult where
  matchPoints : List MatchPoint
  processingTime : Int
  debug : DebugInfo
  error : Option String
deriving Repr, DecidableEq

/-- ConnectionStatus, as declared in both frontend type modules. -/
inductive ConnectionStatus where
  | disconnected
  | connecting
  | connected
  | error
deriving Repr, DecidableEq

/-! ## JSON values, for stating wire-shape properties -/

/-- JSON values; objects keep their fields in emission order. -/
inductive Json where
  | null : Json
  | bool (b : Bool) : Json
  | num (q : Rat) : Json
  | str (s : String) : Json
  | arr (elems : List Json) : Json
  | obj (fields : List (String × Json)) : Json

/-- Keys of a JSON object, in order; empty for non-objects. -/
def Json.keys : Json → List String
  | .obj fs => fs.map Prod.fst
  | _ => []

/-- Field lookup in a JSON object; none for non-objects or absent keys. -/
def Json.getField : Json → String → Option Json
  | .obj fs, k => goFind fs k
  | _, _ => none
where
  goFind : List (String × Json) → String → Option Json
    | [], _ => none
    | f :: fs, k => if f.1 = k then some f.2 else goFind fs k

/-- Modelled from the spec: the transport layer serializes a MatchCandidate
as the wire object with exactly the keys id, bbox, center, confidence,
numMatches, bbox being a 4-element number array and center a 2-element
number array. The serializing backend code is not in the repository
snapshot; this encoder follows the wire shape given in the spec. -/
def encodeCandidate (c : MatchCandidate) : Json :=
  Json.obj
    [ ("id", Json.num (c.id : Rat))
    , ("bbox", Json.arr
        [ Json.num c.bbox.1, Json.num c.bbox.2.1
        , Json.num c.bbox.2.2.1, Json.num c.bbox.2.2.2 ])
    , ("center", Json.arr [Json.num c.center.1, Json.num c.center.2])
    , ("confidence", Json.num c.confidence)
    , ("numMatches", Json.num (c.numMatches : Rat)) ]

/-- Modelled from the spec: clustered-mode wire shape
matches, processingTime, pieceDetected, plus error only when present. -/
def encodeClustered (r : ClusteredMatchResult) : Json :=
  Json.obj
    ([ ("matches", Json.arr (r.«matches».map encodeCandidate))
     , ("processingTime", Json.num (r.processingTime : Rat))
     , ("pieceDetected", Json.bool r.pieceDetected) ] ++
      (match r.error with
       | some e => [("error", Json.str e)]
       | none => []))

/-- Modelled from the spec: serialization of DebugInfo. The optional
frame_size key is emitted only when present; the five mandatory fields
always follow, with stages as an array of strings. -/
def encodeDebug (d : DebugInfo) : Json :=
  Json.obj
    ((match d.frame_size with
      | some wh => [("frame_size", Json.arr [Json.num (wh.1 : Rat), Json.num (wh.2 : Rat)])]
      | none => []) ++
     [ ("frame_keypoints", Json.num (d.frame_keypoints : Rat))
     , ("ref_keypoints", Json.num (d.ref_keypoints : Rat))
     , ("raw_matches", Json.num (d.raw_matches : Rat))
     , ("good_matches", Json.num (d.good_matches : Rat))
     , ("stages", Json.arr (d.stages.map Json.str)) ])

/-- Modelled from the spec: serialization of a MatchPoint as
framePt, refPt, distance. -/
def encodeMatchPoint (m : MatchPoint) : Json :=
  Json.obj
    [ ("framePt", Json.arr [Json.num m.framePt.1, Json.num m.framePt.2])
    , ("refPt", Json.arr [Json.num m.refPt.1, Json.num m.refPt.2])
    , ("distance", Json.num m.distance) ]

/-- Modelled from the spec: raw-correspondence-mode wire shape
matchPoints, processingTime, debug, plus error only when present. -/
def encodeRaw (r : RawMatchResult) : Json :=
  Json.obj
    ([ ("matchPoints", Json.arr (r.matchPoints.map encodeMatchPoint))
     , ("processingTime", Json.num (r.processingTime : Rat))
     , ("debug", encodeDebug r.debug) ] ++
      (match r.error with
       | some e => [("error", Json.str e)]
       | none => []))

/-- Sample candidate used to instantiate hypothesis-bearing theorems. -/
def sampleCandidate : MatchCandidate :=
  { id := 0, bbox := (10, 20, 30, 40), center := (25, 40)
  , confidence := 1 / 2, numMatches := 12 }

/-- Sample clustered result with one candidate and no error field. -/
def sampleClusteredResult : ClusteredMatchResult :=
  { «matches» := [sampleCandidate], processingTime := 17
  , pieceDetected := true, error := none }

/-- Sample debug info without the optional frame_size field, as permitted by
the DebugInfo declaration in src/unnamed/part_003. -/
def sampleDebugNoSize : DebugInfo :=
  { frame_size := none, frame_keypoints := 120, ref_keypoints := 3000
  , raw_matches := 120, good_matches := 40
  , stages := ["Decoded frame", "Extracted features", "Matched descriptors"] }

/-- Sample raw-correspondence result whose debug object omits frame_size. -/
def sampleRawNoSize : RawMatchResult :=
  { matchPoints := [{ framePt := (1, 2), refPt := (3, 4), distance := 5 }]
  , processingTime := 9, debug := sampleDebugNoSize, error := none }

/-! ## CandidateClusterer model

The clustering backend is not part of the repository snapshot; the
definitions below are modelled from the spec: planar similarity transform
fitting by consensus over minimal samples, candidate emission by projecting
the piece bounding box (with an axis-aligned fallback on degenerate fits),
confidence scoring clamped to the unit interval, and descending sort with
deterministic tie-breaking. -/

/-- Modelled from the spec: a planar rotation + scale + translation,
mapping (x, y) to (a*x - b*y + tx, b*x + a*y + ty). -/
structure Transform where
  a : Rat
  b : Rat
  tx : Rat
  ty : Rat
deriving Repr, DecidableEq

/-- Application of a planar similarity transform to a point. -/
def applyTransform (t : Transform) (p : Rat × Rat) : Rat × Rat :=
  (t.a * p.1 - t.b * p.2 + t.tx, t.b * p.1 + t.a * p.2 + t.ty)

/-- Numerically degenerate fit: the linear part vanishes. -/
def isDegenerate (t : Transform) : Bool :=
  decide (t.a = 0 ∧ t.b = 0)

/-- Axis-aligned bounding box (x, y, w, h) of a point list; zero box when
the list is empty. -/
def aabbOfPoints : List (Rat × Rat) → Rat × Rat × Rat × Rat
  | [] => (0, 0, 0, 0)
  | p :: ps =>
    let xmin := ps.foldl (fun acc q => min acc q.1) p.1
    let xmax := ps.foldl (fun acc q => max acc q.1) p.1
    let ymin := ps.foldl (fun acc q => min acc q.2) p.2
    let ymax := ps.foldl (fun acc q => max acc q.2) p.2
    (xmin, ymin, xmax - xmin, ymax - ymin)

/-- Modelled from the spec: projection of the piece bounding box through the
fitted transform into reference coordinates, as the axis-aligned bounding
box of the four projected corners. -/
def projectBBox (t : Transform) (b : Rat × Rat × Rat × Rat) : Rat × Rat × Rat × Rat :=
  aabbOfPoints
    ([ (b.1, b.2.1), (b.1 + b.2.2.1, b.2.1)
     , (b.1, b.2.1 + b.2.2.2), (b.1 + b.2.2.1, b.2.1 + b.2.2.2) ].map (applyTransform t))

/-- Modelled from the spec: clamping of an emitted bbox into the reference
image, realizing the invariant that every MatchCandidate.bbox lies within
the half-open box [0, width) x [0, height) of its reference. -/
def clampBBox (width height : Rat) (b : Rat × Rat × Rat × Rat) : Rat × Rat × Rat × Rat :=
  let x := max 0 (min b.1 (width - 1))
  let y := max 0 (min b.2.1 (height - 1))
  (x, y, max 0 (min b.2.2.1 (width - x)), max 0 (min b.2.2.2 (height - y)))

/-- Containment of a bbox (x, y, w, h) in [0, width) x [0, height): the
origin lies inside the image and the extent stays inside it. -/
def bboxWithin (width height : Rat) (b : Rat × Rat × Rat × Rat) : Prop :=
  0 ≤ b.1 ∧ b.1 < width ∧ 0 ≤ b.2.1 ∧ b.2.1 < height ∧
    0 ≤ b.2.2.1 ∧ b.1 + b.2.2.1 ≤ width ∧ 0 ≤ b.2.2.2 ∧ b.2.1 + b.2.2.2 ≤ height

instance (width height : Rat) (b : Rat × Rat × Rat × Rat) :
    Decidable (bboxWithin width height b) := by
  unfold bboxWithin; infer_instance

/-- Modelled from the spec: confidence scoring
min(1, inlierCount / expectedInliersForFullConfidence). -/
def confidenceScore (inlierCount expected : Nat) : Rat :=
  min 1 ((inlierCount : Rat) / (expected : Rat))

/-- Modelled from the spec: emission of one MatchCandidate from a fitted
transform and its inlier set; bbox by projection (falling back to the
axis-aligned bounding box of the inlier reference-side keypoints when the
transform is degenerate) and clamped into the reference; center is the
bbox centroid; numMatches is the inlier count; id is the emission index. -/
def emitCandidate (width height : Rat) (t : Transform)
    (pieceBounds : Rat × Rat × Rat × Rat) (inlierRefPts : List (Rat × Rat))
    (inlierCount expected : Nat) (idx : Int) : MatchCandidate :=
  let raw := if isDegenerate t then aabbOfPoints inlierRefPts else projectBBox t pieceBounds
  let bb := clampBBox width height raw
  { id := idx
  , bbox := bb
  , center := (bb.1 + bb.2.2.1 / 2, bb.2.1 + bb.2.2.2 / 2)
  , confidence := confidenceScore inlierCount expected
  , numMatches := Int.ofNat inlierCount }

/-- Sort key of a candidate: lexicographically, higher confidence first,
then higher numMatches, then smaller id (the emission index). -/
def candKey (c : MatchCandidate) : Lex (Rat × Lex (Int × Int)) :=
  toLex (-c.confidence, toLex (-c.numMatches, c.id))

/-- Ordering used to sort the result list. -/
def candOrder (c d : MatchCandidate) : Prop :=
  candKey c ≤ candKey d

instance : DecidableRel candOrder :=
  fun c d => inferInstanceAs (Decidable (candKey c ≤ candKey d))

instance : IsTrans MatchCandidate candOrder :=
  ⟨fun _ _ _ h1 h2 => le_trans h1 h2⟩

instance : IsTotal MatchCandidate candOrder :=
  ⟨fun c d => le_total (candKey c) (candKey d)⟩

/-! ## DescriptorMatcher, RANSAC surrogate and pipeline model

Modelled from the spec: the backend pipeline source is not in the
repository snapshot. The matcher performs a 2-nearest-neighbor search with
the ratio test; consensus fitting enumerates minimal two-correspondence
samples in a fixed order and keeps the transform with the most inliers
(first winner on ties), making the whole pipeline a pure function of its
inputs. -/

/-- Descriptor: a fixed-length numeric vector. -/
abbrev Descriptor := List Rat

/-- Feature: a keypoint position together with its descriptor. -/
structure Feature where
  pos : Rat × Rat
  desc : Descriptor
deriving Repr, DecidableEq

/-- ReferenceIndex: dimensions plus the indexed features of one reference
image, immutable once built. -/
structure ReferenceIndex where
  width : Rat
  height : Rat
  features : List Feature
deriving Repr, DecidableEq

/-- Squared euclidean distance between two descriptors. -/
def descDist (u v : Descriptor) : Rat :=
  ((u.zip v).map (fun p => (p.1 - p.2) * (p.1 - p.2))).sum

/-- Modelled from the spec: scan for the two nearest reference features to a
query descriptor, returning the best position, the best distance and the
second-best distance when one exists. -/
def knn2 (q : Descriptor) (feats : List Feature) :
    Option ((Rat × Rat) × Rat × Option Rat) :=
  feats.foldl (fun acc f =>
    let d := descDist q f.desc
    match acc with
    | none => some (f.pos, d, none)
    | some (bp, bd, sd) =>
      if d < bd then some (f.pos, d, some bd)
      else
        match sd with
        | none => some (bp, bd, some d)
        | some s => if d < s then some (bp, bd, some d) else some (bp, bd, some s))
    none

/-- Lowe ratio threshold of the matcher. -/
def ratioThreshold : Rat := 3 / 4

/-- Modelled from the spec: keep the best neighbor of each query descriptor
only when its distance beats ratioThreshold times the second-best distance;
each survivor is a correspondence with the TypeScript MatchPoint shape. -/
def matchDescriptors (queryFeats : List Feature) (ref : ReferenceIndex) :
    List MatchPoint :=
  queryFeats.filterMap (fun qf =>
    match knn2 qf.desc ref.features with
    | some (bp, bd, some sd) =>
      if bd < ratioThreshold * sd then
        some { framePt := qf.pos, refPt := bp, distance := bd }
      else none
    | _ => none)

/-- Squared euclidean distance between two points. -/
def ptDist (p q : Rat × Rat) : Rat :=
  (p.1 - q.1) * (p.1 - q.1) + (p.2 - q.2) * (p.2 - q.2)

/-- Squared pixel-distance tolerance for inliers. -/
def inlierTolSq : Rat := 25

/-- Minimum credible inlier count; below it clustering stops. -/
def minInlierCount : Nat := 6

/-- Inlier count at which confidence saturates to 1. -/
def expectedInliersForFullConfidence : Nat := 20

/-- Hard cap on emitted candidates per frame. -/
def maxCandidateCount : Nat := 5

/-- Correspondences consistent with a transform within tolerance. -/
def inliersOf (t : Transform) (pool : List MatchPoint) : List MatchPoint :=
  pool.filter (fun c => decide (ptDist (applyTransform t c.framePt) c.refPt ≤ inlierTolSq))

/-- All ordered pairs of distinct positions of a list, in a fixed order. -/
def allPairsList {α : Type} : List α → List (α × α)
  | [] => []
  | x :: xs => xs.map (fun y => (x, y)) ++ allPairsList xs

/-- Modelled from the spec: fit of a similarity transform from one minimal
two-correspondence sample; none when the sample is degenerate. -/
def fitFromPair (c1 c2 : MatchPoint) : Option Transform :=
  let dx := c2.framePt.1 - c1.framePt.1
  let dy := c2.framePt.2 - c1.framePt.2
  let du := c2.refPt.1 - c1.refPt.1
  let dv := c2.refPt.2 - c1.refPt.2
  let det := dx * dx + dy * dy
  if det = 0 then none
  else
    let a := (du * dx + dv * dy) / det
    let b := (dv * dx - du * dy) / det
    some { a := a, b := b
         , tx := c1.refPt.1 - (a * c1.framePt.1 - b * c1.framePt.2)
         , ty := c1.refPt.2 - (b * c1.framePt.1 + a * c1.framePt.2) }

/-- Modelled from the spec: consensus search over the minimal samples of the
pool, keeping the transform with the largest inlier set (first winner on
ties, so the search is deterministic). -/
def consensusBest (pool : List MatchPoint) : Option (Transform × List MatchPoint) :=
  (allPairsList pool).foldl (fun acc pr =>
    match fitFromPair pr.1 pr.2 with
    | none => acc
    | some t =>
      let inl := inliersOf t pool
      match acc with
      | none => some (t, inl)
      | some best => if best.2.length < inl.length then some (t, inl) else some best)
    none

/-- Removal of consumed inlier correspondences from the pool. -/
def removeMatched (pool inl : List MatchPoint) : List MatchPoint :=
  pool.filter (fun c => decide (c ∉ inl))

/-- Modelled from the spec: the iterative best-fit-and-remove loop, stopping
when no credible inlier set remains or the candidate cap is reached. -/
def clusterLoop : Nat → List MatchPoint → List (Transform × List MatchPoint)
  | 0, _ => []
  | fuel + 1, pool =>
    match consensusBest pool with
    | none => []
    | some ti =>
      if ti.2.length < minInlierCount then []
      else ti :: clusterLoop fuel (removeMatched pool ti.2)

/-- Modelled from the spec: full clustering of a correspondence pool into a
sorted candidate list; ids are the emission indices. -/
def runClusterer (width height : Rat) (pieceBounds : Rat × Rat × Rat × Rat)
    (pool : List MatchPoint) : List MatchCandidate :=
  let groups := clusterLoop maxCandidateCount pool
  let cands := groups.enum.map (fun gi =>
    emitCandidate width height gi.2.1 pieceBounds (gi.2.2.map (fun c => c.refPt))
      gi.2.2.length expectedInliersForFullConfidence (Int.ofNat gi.1))
  List.insertionSort candOrder cands

/-! ## Segmenter and per-frame pipeline model -/

/-- A decoded grayscale camera frame: rows of pixel luminances. -/
abbrev FrameGrid := List (List Nat)

/-- Luminance at or above this value counts as near-white background. -/
def whiteThreshold : Nat := 240

/-- Minimum foreground area for a credible piece region. -/
def minRegionArea : Nat := 50

/-- Foreground pixel coordinates of one row, scanning from column x. -/
def rowForeground (y : Nat) : Nat → List Nat → List (Nat × Nat)
  | _, [] => []
  | x, p :: ps =>
    if p < whiteThreshold then (x, y) :: rowForeground y (x + 1) ps
    else rowForeground y (x + 1) ps

/-- Foreground pixel coordinates of a frame, scanning from row y. -/
def frameForeground : Nat → FrameGrid → List (Nat × Nat)
  | _, [] => []
  | y, row :: rows => rowForeground y 0 row ++ frameForeground (y + 1) rows

/-- Modelled from the spec: segmentation by near-white thresholding; the
foreground region (modelled as the bounding region of all non-background
pixels, which agrees with largest-connected-region selection on frames
holding one object or none) must clear the minimum-area threshold,
otherwise the frame is the normal idle case and no piece is detected. -/
def segmentFrame (frame : FrameGrid) : Option (Rat × Rat × Rat × Rat) :=
  match frameForeground 0 frame with
  | [] => none
  | p :: ps =>
    if (p :: ps).length < minRegionArea then none
    else
      let xmin := ps.foldl (fun acc c => min acc (c.1 : Rat)) (p.1 : Rat)
      let xmax := ps.foldl (fun acc c => max acc (c.1 : Rat)) (p.1 : Rat)
      let ymin := ps.foldl (fun acc c => min acc (c.2 : Rat)) (p.2 : Rat)
      let ymax := ps.foldl (fun acc c => max acc (c.2 : Rat)) (p.2 : Rat)
      some (xmin, ymin, xmax - xmin + 1, ymax - ymin + 1)

/-- FeatureExtractor interface: keypoints and descriptors extracted from the
segmented region of a frame. The extraction algorithm is an upstream stage
the pipeline theorems quantify over. -/
abbrev Extractor := FrameGrid → Rat × Rat × Rat × Rat → List Feature

/-- Modelled from the spec: one pass of the clustered-mode pipeline over a
frame, before the processing time is measured in. -/
def processCore (extract : Extractor) (frame : FrameGrid) (ref : ReferenceIndex) :
    ClusteredMatchResult :=
  match segmentFrame frame with
  | none =>
    { «matches» := [], processingTime := 0, pieceDetected := false, error := none }
  | some rect =>
    let feats := extract frame rect
    let corrs := matchDescriptors feats ref
    { «matches» := runClusterer ref.width ref.height rect corrs
    , processingTime := 0, pieceDetected := true, error := none }

/-- Modelled from the spec: the full per-frame entry point; the measured
elapsed time enters the result only through processingTime. -/
def processFrame (extract : Extractor) (frame : FrameGrid) (ref : ReferenceIndex)
    (elapsedMs : Int) : ClusteredMatchResult :=
  { processCore extract frame ref with processingTime := elapsedMs }

/-- Erasure of the processingTime field, for stating determinism modulo
timing. -/
def stripTime (r : ClusteredMatchResult) : ClusteredMatchResult :=
  { r with processingTime := 0 }

/-! ## SessionController model -/

/-- Modelled from the spec: per-connection states Idle, Processing (holding
the accepted frame) and the terminal Closed. -/
inductive SessionState (F : Type) where
  | idle
  | processing (frame : F)
  | closed
deriving Repr, DecidableEq

/-- Events a session reacts to. -/
inductive SessionEvent (F : Type) where
  | frameArrival (frame : F)
  | finishProcessing
  | disconnect
deriving Repr, DecidableEq

/-- Modelled from the spec: the session state machine. A frame arriving
while idle is accepted; a frame arriving while processing is dropped and
no result is emitted for it; finishing emits exactly one result for the
accepted frame; disconnect closes from any state without emitting. -/
def sessionStep {F R : Type} (proc : F → R) :
    SessionState F → SessionEvent F → SessionState F × Option R
  | SessionState.idle, SessionEvent.frameArrival f => (SessionState.processing f, none)
  | SessionState.processing f, SessionEvent.frameArrival _ => (SessionState.processing f, none)
  | SessionState.processing f, SessionEvent.finishProcessing => (SessionState.idle, some (proc f))
  | SessionState.idle, SessionEvent.finishProcessing => (SessionState.idle, none)
  | SessionState.closed, _ => (SessionState.closed, none)
  | _, SessionEvent.disconnect => (SessionState.closed, none)

/-- Number of frames in flight in a session state. -/
def inFlight {F : Type} : SessionState F → Nat
  | SessionState.processing _ => 1
  | _ => 0

/-- Run of a session over an event list, collecting the emitted results. -/
def runSession {F R : Type} (proc : F → R) :
    SessionState F → List (SessionEvent F) → SessionState F × List R
  | s, [] => (s, [])
  | s, e :: es =>
    let step := sessionStep proc s e
    let rest := runSession proc step.1 es
    (rest.1, step.2.toList ++ rest.2)

/-! ## Frontend models, from the TypeScript source under src/frontend -/

/-- Binary frame payload captured from the camera (a JPEG blob). -/
abbrev FrameBlob := List Nat

/-- State of the App component (src/frontend/src/App.tsx): the useState
hooks relevant to capture and result handling. -/
structure AppState where
  isProcessing : Bool
  status : ConnectionStatus
  matchPoints : List MatchPoint
  debugInfo : Option DebugInfo
  processingTime : Option Int
  lastFrameUrl : Option String
  selectedPuzzle : Option PuzzleInfo
deriving Repr, DecidableEq

/-- Events the App component reacts to: a click of the Capture button
(carrying the frame captureFrame returned, or none), receipt of a
MatchResult message over the WebSocket, socket open, error and close
callbacks, selection of a puzzle, and plain passage of time (the component
registers no timer). -/
inductive AppEvent where
  | captureClick (frame : Option FrameBlob)
  | matchResult (result : RawMatchResult)
  | wsOpen
  | wsError
  | wsClose
  | puzzleSelect (puzzle : PuzzleInfo)
  | timePasses
deriving Repr, DecidableEq

/-- Transition function of the App component, translated from App.tsx:
handleCapture returns early unless status is connected and a frame was
captured, otherwise sets isProcessing and stores the frame URL;
handleMatchResult stores matchPoints, debug and processingTime and clears
isProcessing; the socket callbacks only change status; handlePuzzleSelect
resets matchPoints, debugInfo and lastFrameUrl and reconnects, leaving
isProcessing untouched; no timer exists, so time passing changes nothing. -/
def appStep (s : AppState) (e : AppEvent) : AppState :=
  match e with
  | AppEvent.captureClick f =>
    if s.status ≠ ConnectionStatus.connected then s
    else
      match f with
      | none => s
      | some _ => { s with isProcessing := true, lastFrameUrl := some "objectURL" }
  | AppEvent.matchResult r =>
    { s with matchPoints := r.matchPoints
           , debugInfo := some r.debug
           , processingTime := some r.processingTime
           , isProcessing := false }
  | AppEvent.wsOpen => { s with status := ConnectionStatus.connected }
  | AppEvent.wsError => { s with status := ConnectionStatus.error }
  | AppEvent.wsClose => { s with status := ConnectionStatus.disconnected }
  | AppEvent.puzzleSelect p =>
    { s with selectedPuzzle := some p
           , matchPoints := []
           , debugInfo := none
           , lastFrameUrl := none
           , status := ConnectionStatus.connecting }
  | AppEvent.timePasses => s

/-- Disabled condition of the Capture button in App.tsx:
status !== connected || isProcessing. -/
def captureDisabled (s : AppState) : Bool :=
  decide (s.status ≠ ConnectionStatus.connected) || s.isProcessing

/-- State of the useWebSocket hook (src/unnamed/part_002): the current
socket with its readyState when one exists, plus the status and lastResult
state hooks. -/
structure WsHookState where
  socketReadyState : Option Nat
  status : ConnectionStatus
  lastResult : Option RawMatchResult
deriving Repr, DecidableEq

/-- The numeric value of WebSocket.OPEN. -/
def wsOpenState : Nat := 1

/-- sendFrame, translated from src/unnamed/part_002 lines 78-82: transmit
the frame exactly when a socket exists and its readyState is OPEN; the
hook state is returned unchanged in every case, and the transmitted list
is the sole output. -/
def sendFrame (s : WsHookState) (frame : FrameBlob) : WsHookState × List FrameBlob :=
  match s.socketReadyState with
  | some rs => if rs = wsOpenState then (s, [frame]) else (s, [])
  | none => (s, [])

/-- handleDelete of PuzzleSelector.tsx, translated from lines 40-55 with
the confirm dialog accepted and the DELETE request succeeding. It returns
the puzzle list after the setPuzzles filter, together with the argument
passed to onSelect: none when onSelect is not called, some arg when it is
(arg itself is an Option, since the JavaScript expression can evaluate to
undefined on an empty list). The replacement selection is computed from
the pre-deletion list captured in the closure:
puzzles.find(p => p.id !== puzzleId) || puzzles[0]. -/
def handleDelete (puzzles : List PuzzleInfo) (selectedId : Option String)
    (puzzleId : String) : List PuzzleInfo × Option (Option PuzzleInfo) :=
  let remaining := puzzles.filter (fun p => p.id != puzzleId)
  let selectArg :=
    if selectedId = some puzzleId then
      some (match puzzles.find? (fun p => p.id != puzzleId) with
            | some p => some p
            | none => puzzles.head?)
    else none
  (remaining, selectArg)

/-- A frame whose pixels are all at or above the near-white threshold. -/
def uniformNearWhite (frame : FrameGrid) : Prop :=
  ∀ row ∈ frame, ∀ p ∈ row, whiteThreshold ≤ p

instance (frame : FrameGrid) : Decidable (uniformNearWhite frame) := by
  unfold uniformNearWhite; infer_instance

/-- Concrete all-white 2 by 2 test frame. -/
def whiteFrame : FrameGrid := [[255, 255], [255, 255]]

/-- Trivial extractor used to instantiate pipeline theorems. -/
def emptyExtractor : Extractor := fun _ _ => []

/-- Concrete reference index used to instantiate pipeline theorems. -/
def sampleRef : ReferenceIndex := { width := 100, height := 80, features := [] }

/-- Concrete stuck App state: a frame was sent and no reply has arrived. -/
def stuckAppState : AppState :=
  { isProcessing := true, status := ConnectionStatus.connected
  , matchPoints := [], debugInfo := none, processingTime := none
  , lastFrameUrl := some "objectURL", selectedPuzzle := none }

/-- Concrete reply-free event sequence: an error, a close, time passing and
a puzzle change. -/
def replyFreeEvents : List AppEvent :=
  [ AppEvent.wsError, AppEvent.wsClose, AppEvent.timePasses
  , AppEvent.puzzleSelect
      { id := "p1", name := "alps", width := 2000, height := 1500, num_features := 3000 } ]

/-! ## Theorems -/

/-- C1: every clustered-mode MatchResult serializes as an object whose keys
are exactly matches, processingTime, pieceDetected, with error appended
exactly when present, and every element of matches serializes with exactly
the keys id, bbox, center, confidence, numMatches, bbox being a 4-element
number array and center a 2-element number array. -/
theorem C1_clustered_wire_shape (r : ClusteredMatchResult) :
    (encodeClustered r).keys =
      ["matches", "processingTime", "pieceDetected"] ++
        (match r.error with | some _ => ["error"] | none => []) ∧
    ∀ c ∈ r.«matches»,
      (encodeCandidate c).keys = ["id", "bbox", "center", "confidence", "numMatches"] ∧
      (encodeCandidate c).getField "bbox" =
        some (Json.arr [Json.num c.bbox.1, Json.num c.bbox.2.1,
          Json.num c.bbox.2.2.1, Json.num c.bbox.2.2.2]) ∧
      (encodeCandidate c).getField "center" =
        some (Json.arr [Json.num c.center.1, Json.num c.center.2]) := by
  constructor
  · cases h : r.error <;> simp [encodeClustered, Json.keys, h]
  · intro c _
    refine ⟨rfl, ?_, ?_⟩ <;> rfl

/-- C1 witness: the wire-shape theorem instantiated at a concrete result
holding one concrete candidate. -/
theorem C1_clustered_wire_shape_witness :
    (encodeClustered sampleClusteredResult).keys =
      ["matches", "processingTime", "pieceDetected"] ∧
    (encodeCandidate sampleCandidate).keys =
      ["id", "bbox", "center", "confidence", "numMatches"] := by
  have h := C1_clustered_wire_shape sampleClusteredResult
  have hm : sampleCandidate ∈ sampleClusteredResult.«matches» := by
    simp [sampleClusteredResult]
  exact ⟨h.1, (h.2 sampleCandidate hm).1⟩

/-- C2 counterexample: a raw-correspondence MatchResult whose debug object
does not carry the frame_size field, refuting the claim that debug always
carries all six fields; frame_size is declared optional in
src/unnamed/part_003 and may be absent. -/
theorem C2_frame_size_absent_counterexample :
    sampleRawNoSize.debug.frame_size = none ∧
    (encodeDebug sampleRawNoSize.debug).keys =
      ["frame_keypoints", "ref_keypoints", "raw_matches", "good_matches", "stages"] ∧
    ("frame_size" ∈ (encodeDebug sampleRawNoSize.debug).keys) = False := by
  refine ⟨rfl, rfl, ?_⟩
  simp [sampleRawNoSize, sampleDebugNoSize, encodeDebug, Json.keys]

/-- C2 (amended): every raw-correspondence MatchResult serializes with
exactly the keys matchPoints, processingTime, debug, plus error when
present; each match point carries framePt, refPt, distance; the debug
object always carries the five mandatory fields frame_keypoints,
ref_keypoints, raw_matches, good_matches and stages, preceded by
frame_size exactly when that optional field is present; stages is an
ordered sequence of strings. -/
theorem C2_raw_wire_shape (r : RawMatchResult) :
    (encodeRaw r).keys =
      ["matchPoints", "processingTime", "debug"] ++
        (match r.error with | some _ => ["error"] | none => []) ∧
    (∀ m ∈ r.matchPoints,
      (encodeMatchPoint m).keys = ["framePt", "refPt", "distance"]) ∧
    (encodeDebug r.debug).keys =
      (match r.debug.frame_size with | some _ => ["frame_size"] | none => []) ++
        ["frame_keypoints", "ref_keypoints", "raw_matches", "good_matches", "stages"] ∧
    (encodeDebug r.debug).getField "stages" =
      some (Json.arr (r.debug.stages.map Json.str)) := by
  refine ⟨?_, fun m _ => rfl, ?_, ?_⟩
  · cases h : r.error <;> simp [encodeRaw, Json.keys, h]
  · cases h : r.debug.frame_size <;> simp [encodeDebug, Json.keys, h]
  · cases h : r.debug.frame_size <;>
      simp [encodeDebug, Json.getField, Json.getField.goFind, h]

/-- C2 witness: the amended wire-shape theorem instantiated at the concrete
result whose debug object omits frame_size. -/
theorem C2_raw_wire_shape_witness :
    (encodeRaw sampleRawNoSize).keys = ["matchPoints", "processingTime", "debug"] ∧
    (encodeMatchPoint { framePt := (1, 2), refPt := (3, 4), distance := 5 }).keys =
      ["framePt", "refPt", "distance"] := by
  have h := C2_raw_wire_shape sampleRawNoSize
  have hm : ({ framePt := (1, 2), refPt := (3, 4), distance := 5 } : MatchPoint)
      ∈ sampleRawNoSize.matchPoints := by
    simp [sampleRawNoSize]
  exact ⟨h.1, h.2.1 _ hm⟩

/-- Characterization of the sort order: higher confidence first, ties by
higher numMatches, remaining ties by smaller id (the emission index). -/
theorem candOrder_iff (c d : MatchCandidate) :
    candOrder c d ↔
      d.confidence < c.confidence ∨
        (c.confidence = d.confidence ∧
          (d.numMatches < c.numMatches ∨
            (c.numMatches = d.numMatches ∧ c.id ≤ d.id))) := by
  unfold candOrder candKey
  rw [Prod.Lex.le_iff, Prod.Lex.le_iff]
  simp only [neg_lt_neg_iff, neg_inj]

/-- The confidence score is nonnegative. -/
theorem confidenceScore_nonneg (n e : Nat) : 0 ≤ confidenceScore n e := by
  unfold confidenceScore
  exact le_min (by norm_num) (div_nonneg (Nat.cast_nonneg n) (Nat.cast_nonneg e))

/-- The confidence score is at most one. -/
theorem confidenceScore_le_one (n e : Nat) : confidenceScore n e ≤ 1 :=
  min_le_left _ _

/-- Clamping lands any bbox inside the reference image. -/
theorem clampBBox_within (width height : Rat) (hw : 1 ≤ width) (hh : 1 ≤ height)
    (b : Rat × Rat × Rat × Rat) :
    bboxWithin width height (clampBBox width height b) := by
  obtain ⟨bx, yv, bw, bh⟩ := b
  simp only [clampBBox, bboxWithin]
  have hx0 : (0 : Rat) ≤ max 0 (min bx (width - 1)) := le_max_left _ _
  have hxw : max 0 (min bx (width - 1)) < width := by
    apply max_lt
    · linarith
    · exact lt_of_le_of_lt (min_le_right _ _) (by linarith)
  have hy0 : (0 : Rat) ≤ max 0 (min yv (height - 1)) := le_max_left _ _
  have hyh : max 0 (min yv (height - 1)) < height := by
    apply max_lt
    · linarith
    · exact lt_of_le_of_lt (min_le_right _ _) (by linarith)
  have hwle : max 0 (min bw (width - max 0 (min bx (width - 1)))) ≤
      width - max 0 (min bx (width - 1)) :=
    max_le (by linarith) (min_le_right _ _)
  have hhle : max 0 (min bh (height - max 0 (min yv (height - 1)))) ≤
      height - max 0 (min yv (height - 1)) :=
    max_le (by linarith) (min_le_right _ _)
  exact ⟨hx0, hxw, hy0, hyh, le_max_left _ _, by linarith, le_max_left _ _, by linarith⟩

/-- C6: every MatchCandidate emitted by the clusterer, including those whose
bbox was obtained by projecting the piece bounding box through the fitted
transform (or the degenerate-fit fallback), has a bbox lying entirely
within [0, width) x [0, height) of its reference image. -/
theorem C6_emitted_bbox_within (width height : Rat) (t : Transform)
    (pieceBounds : Rat × Rat × Rat × Rat) (inlierRefPts : List (Rat × Rat))
    (inlierCount expected : Nat) (idx : Int)
    (hw : 1 ≤ width) (hh : 1 ≤ height) :
    bboxWithin width height
      (emitCandidate width height t pieceBounds inlierRefPts inlierCount expected idx).bbox := by
  have h := clampBBox_within width height hw hh
    (if isDegenerate t then aabbOfPoints inlierRefPts else projectBBox t pieceBounds)
  simpa [emitCandidate] using h

/-- C6 witness: the containment theorem at a concrete emission. -/
theorem C6_emitted_bbox_within_witness :
    (1 : Rat) ≤ 100 ∧ (1 : Rat) ≤ 80 ∧
      bboxWithin 100 80
        (emitCandidate 100 80 { a := 1, b := 0, tx := 0, ty := 0 }
          (5, 5, 10, 10) [] 8 20 0).bbox :=
  ⟨by norm_num, by norm_num,
    C6_emitted_bbox_within 100 80 { a := 1, b := 0, tx := 0, ty := 0 }
      (5, 5, 10, 10) [] 8 20 0 (by norm_num) (by norm_num)⟩

/-- C3: in every MatchResult produced by the pipeline, every candidate
confidence lies in [0, 1], and the matches list is sorted by confidence
descending, ties broken by higher numMatches and then by smaller candidate
id, the insertion (emission) index. -/
theorem C3_sorted_and_bounded (extract : Extractor) (frame : FrameGrid)
    (ref : ReferenceIndex) (elapsedMs : Int) :
    ((processFrame extract frame ref elapsedMs).«matches».Sorted (fun c d =>
        d.confidence < c.confidence ∨
          (c.confidence = d.confidence ∧
            (d.numMatches < c.numMatches ∨
              (c.numMatches = d.numMatches ∧ c.id ≤ d.id))))) ∧
    (processFrame extract frame ref elapsedMs).«matches».all
      (fun c => decide (0 ≤ c.confidence) && decide (c.confidence ≤ 1)) = true := by
  have hsorted : ∀ (pool : List MatchPoint) (pb : Rat × Rat × Rat × Rat),
      (runClusterer ref.width ref.height pb pool).Sorted candOrder :=
    fun pool pb => List.sorted_insertionSort candOrder _
  have hbound : ∀ (pool : List MatchPoint) (pb : Rat × Rat × Rat × Rat),
      ∀ c ∈ runClusterer ref.width ref.height pb pool,
        0 ≤ c.confidence ∧ c.confidence ≤ 1 := by
    intro pool pb c hc
    have hmem : c ∈ (clusterLoop maxCandidateCount pool).enum.map (fun gi =>
        emitCandidate ref.width ref.height gi.2.1 pb (gi.2.2.map (fun x => x.refPt))
          gi.2.2.length expectedInliersForFullConfidence (Int.ofNat gi.1)) := by
      simpa [runClusterer, List.mem_insertionSort] using hc
    rcases List.mem_map.mp hmem with ⟨gi, _, rfl⟩
    exact ⟨confidenceScore_nonneg _ _, confidenceScore_le_one _ _⟩
  have hm : (processFrame extract frame ref elapsedMs).«matches» =
      (processCore extract frame ref).«matches» := rfl
  rw [hm]
  rcases hseg : segmentFrame frame with _ | rect
  · simp [processCore, hseg]
  · have hmm : (processCore extract frame ref).«matches» =
        runClusterer ref.width ref.height rect
          (matchDescriptors (extract frame rect) ref) := by
      simp [processCore, hseg]
    rw [hmm]
    constructor
    · exact List.Pairwise.imp (fun h => (candOrder_iff _ _).mp h) (hsorted _ _)
    · rw [List.all_eq_true]
      intro c hc
      have hb := hbound _ _ c hc
      simp [hb.1, hb.2]

/-- C5: processing the same frame twice against the same immutable
ReferenceIndex yields identical MatchResult values once processingTime is
erased, and hence byte-identical serialized output; the measured elapsed
time is the only input the rest of the result does not determine. -/
theorem C5_deterministic_modulo_time (extract : Extractor) (frame : FrameGrid)
    (ref : ReferenceIndex) (t1 t2 : Int) :
    stripTime (processFrame extract frame ref t1) =
      stripTime (processFrame extract frame ref t2) ∧
    encodeClustered (stripTime (processFrame extract frame ref t1)) =
      encodeClustered (stripTime (processFrame extract frame ref t2)) := by
  have h : stripTime (processFrame extract frame ref t1) =
      stripTime (processFrame extract frame ref t2) := rfl
  exact ⟨h, congrArg encodeClustered h⟩

/-- C4: on a session that accepted frame A, a frame B arriving while A is
still being processed is dropped: the trace emits exactly one result, the
one for A, the emitted output is independent of B entirely, and at most
one frame is ever in flight. -/
theorem C4_backpressure_drop {F R : Type} (proc : F → R) (A B : F) :
    runSession proc SessionState.idle
      [SessionEvent.frameArrival A, SessionEvent.frameArrival B,
        SessionEvent.finishProcessing] = (SessionState.idle, [proc A]) ∧
    (∀ B2 : F, runSession proc SessionState.idle
        [SessionEvent.frameArrival A, SessionEvent.frameArrival B,
          SessionEvent.finishProcessing] =
      runSession proc SessionState.idle
        [SessionEvent.frameArrival A, SessionEvent.frameArrival B2,
          SessionEvent.finishProcessing]) ∧
    ∀ (s : SessionState F) (e : SessionEvent F),
      inFlight (sessionStep proc s e).1 ≤ 1 := by
  refine ⟨rfl, fun B2 => rfl, ?_⟩
  intro s e
  cases s <;> cases e <;> simp [sessionStep, inFlight]

/-- A uniformly near-white row yields no foreground pixels. -/
theorem rowForeground_nil (y : Nat) (row : List Nat)
    (h : ∀ p ∈ row, whiteThreshold ≤ p) :
    ∀ x, rowForeground y x row = [] := by
  induction row with
  | nil => intro x; rfl
  | cons p ps ih =>
    intro x
    have hp : ¬ p < whiteThreshold := Nat.not_lt.mpr (h p (List.mem_cons_self p ps))
    simp only [rowForeground, if_neg hp]
    exact ih (fun q hq => h q (List.mem_cons_of_mem p hq)) (x + 1)

/-- A uniformly near-white frame yields no foreground pixels. -/
theorem frameForeground_nil (frame : FrameGrid) (h : uniformNearWhite frame) :
    ∀ y, frameForeground y frame = [] := by
  induction frame with
  | nil => intro y; rfl
  | cons row rows ih =>
    intro y
    simp only [frameForeground]
    rw [rowForeground_nil y row (h row (List.mem_cons_self row rows)) 0,
      ih (fun r hr => h r (List.mem_cons_of_mem row hr)) (y + 1)]
    rfl

/-- Segmentation of a uniformly near-white frame finds nothing. -/
theorem segmentFrame_uniform_none (frame : FrameGrid) (h : uniformNearWhite frame) :
    segmentFrame frame = none := by
  unfold segmentFrame
  rw [frameForeground_nil frame h 0]

/-- C7: a uniformly near-white frame with no object present is the normal
idle condition, not an error: the session accepts the frame and returns to
Idle (it stays open), emitting exactly one result with pieceDetected false,
an empty matches list and no error field. -/
theorem C7_near_white_idle (extract : Extractor) (frame : FrameGrid)
    (ref : ReferenceIndex) (elapsedMs : Int) (h : uniformNearWhite frame) :
    runSession (fun f => processFrame extract f ref elapsedMs) SessionState.idle
        [SessionEvent.frameArrival frame, SessionEvent.finishProcessing] =
      (SessionState.idle, [processFrame extract frame ref elapsedMs]) ∧
    (processFrame extract frame ref elapsedMs).pieceDetected = false ∧
    (processFrame extract frame ref elapsedMs).«matches» = [] ∧
    (processFrame extract frame ref elapsedMs).error = none := by
  have hseg := segmentFrame_uniform_none frame h
  refine ⟨rfl, ?_, ?_, ?_⟩ <;>
    simp [processFrame, processCore, hseg]

/-- C7 witness: the idle-condition theorem at the concrete white frame. -/
theorem C7_near_white_idle_witness :
    uniformNearWhite whiteFrame ∧
    (processFrame emptyExtractor whiteFrame sampleRef 3).pieceDetected = false ∧
    (processFrame emptyExtractor whiteFrame sampleRef 3).«matches» = [] := by
  have hu : uniformNearWhite whiteFrame := by decide
  have h := C7_near_white_idle emptyExtractor whiteFrame sampleRef 3 hu
  exact ⟨hu, h.2.1, h.2.2.1⟩

/-- Any App event other than a MatchResult message leaves a set
isProcessing flag set. -/
theorem appStep_keeps_processing (s : AppState) (e : AppEvent)
    (hs : s.isProcessing = true)
    (hne : ∀ r, e ≠ AppEvent.matchResult r) :
    (appStep s e).isProcessing = true := by
  cases e with
  | captureClick f =>
    simp only [appStep]
    split
    · exact hs
    · cases f
      · exact hs
      · rfl
  | matchResult r => exact absurd rfl (hne r)
  | wsOpen => exact hs
  | wsError => exact hs
  | wsClose => exact hs
  | puzzleSelect p => exact hs
  | timePasses => exact hs

/-- A whole event sequence free of MatchResult messages leaves a set
isProcessing flag set. -/
theorem appSteps_keep_processing (evs : List AppEvent) :
    ∀ s : AppState, s.isProcessing = true →
      (∀ e ∈ evs, ∀ r, e ≠ AppEvent.matchResult r) →
      (evs.foldl appStep s).isProcessing = true := by
  induction evs with
  | nil => intro s hs _; simpa using hs
  | cons e es ih =>
    intro s hs hno
    have hstep := appStep_keeps_processing s e hs (hno e (List.mem_cons_self e es))
    exact ih (appStep s e) hstep (fun x hx => hno x (List.mem_cons_of_mem e hx))

/-- C8: once a captured frame has been sent, isProcessing (and with it the
disabled Capture button) is cleared only by receipt of a MatchResult
message: under any event sequence containing no MatchResult message —
WebSocket errors, closes, puzzle changes, further capture clicks, passage
of time — isProcessing stays set and the Capture button stays disabled,
while a MatchResult message always clears it. -/
theorem C8_processing_cleared_only_by_result (s : AppState) (evs : List AppEvent)
    (hs : s.isProcessing = true)
    (hno : ∀ e ∈ evs, ∀ r, e ≠ AppEvent.matchResult r) :
    (evs.foldl appStep s).isProcessing = true ∧
    captureDisabled (evs.foldl appStep s) = true ∧
    ∀ r, (appStep s (AppEvent.matchResult r)).isProcessing = false := by
  have hkeep := appSteps_keep_processing evs s hs hno
  refine ⟨hkeep, ?_, fun r => rfl⟩
  simp [captureDisabled, hkeep]

/-- C8 witness: the clearing theorem at the concrete stuck state and
reply-free event sequence, with a concrete clearing message. -/
theorem C8_processing_cleared_only_by_result_witness :
    (replyFreeEvents.foldl appStep stuckAppState).isProcessing = true ∧
    (appStep stuckAppState (AppEvent.matchResult sampleRawNoSize)).isProcessing = false := by
  have hno : ∀ e ∈ replyFreeEvents, ∀ r, e ≠ AppEvent.matchResult r := by
    intro e he r
    simp only [replyFreeEvents, List.mem_cons, List.mem_singleton] at he
    rcases he with rfl | rfl | rfl | rfl | h
    · simp
    · simp
    · simp
    · simp
    · simp at h
  have h := C8_processing_cleared_only_by_result stuckAppState replyFreeEvents rfl hno
  exact ⟨h.1, h.2.2 sampleRawNoSize⟩

/-- C9: sendFrame transmits the frame exactly when a socket exists with
readyState OPEN; in every other case the frame is silently discarded: the
hook state (status, lastResult, socket) is returned unchanged in all
cases, nothing else is transmitted, and nothing is queued or retried. -/
theorem C9_sendFrame_transmits_iff_open (s : WsHookState) (frame : FrameBlob) :
    (sendFrame s frame).1 = s ∧
    ((sendFrame s frame).2 = [frame] ↔ s.socketReadyState = some wsOpenState) ∧
    ((sendFrame s frame).2 = [frame] ∨ (sendFrame s frame).2 = []) := by
  rcases h : s.socketReadyState with _ | rs
  · simp [sendFrame, h]
  · by_cases hrs : rs = wsOpenState <;> simp [sendFrame, h, hrs]

/-- C10: handleDelete computes the replacement selection from the
pre-deletion puzzle list captured in its closure; when the deleted puzzle
was the currently selected one and the only puzzle in the list, onSelect
is called with the just-deleted puzzle itself instead of clearing the
selection, even though the remaining list is empty. -/
theorem C10_delete_last_selects_deleted (p : PuzzleInfo) :
    handleDelete [p] (some p.id) p.id = ([], some (some p)) := by
  simp [handleDelete, List.find?]
